import Mathlib

/-!
Shallow embedding of the M7 network-benchmark scripts: the dual-link
Ethernet benchmark (eth_slow_path_m7.py) and the single-link
CAN-to-Ethernet benchmark (can_to_eth_slow_path_m7.py).

Machine arithmetic: Python integers are unbounded, so counters are Nat.
Python float division raises ZeroDivisionError on a zero divisor, which is
modelled by pyDivQ returning Except; otherwise division is modelled over
the rationals.  Python int() applied to a nonnegative float truncates
toward zero, modelled by pyInt.
-/

/-- Python float division: raises ZeroDivisionError when the divisor is
zero, otherwise yields the exact quotient (modelled over the rationals). -/
def pyDivQ (a b : ℚ) : Except String ℚ :=
  if b = 0 then Except.error "ZeroDivisionError" else Except.ok (a / b)

/-- Python int() applied to a rational-valued float: truncation toward
zero. -/
def pyInt (q : ℚ) : ℤ :=
  if 0 ≤ q then ⌊q⌋ else -⌊-q⌋

/-- Whether an Except value is an error. -/
def isError {ε α : Type} : Except ε α → Bool
  | Except.error _ => true
  | Except.ok _ => false

namespace NetNSModel

/-- Abstract state for the namespace switcher: the current network
namespace of the calling thread, the set of namespace names that exist
under /var/run/netns, and the open file handles (each handle is recorded
by the namespace it refers to). -/
structure World where
  curNS : String
  nsPaths : List String
  openHandles : List String
  deriving DecidableEq, Repr

/-- Which of the two setns syscalls performed by the context manager
succeed at kernel level: entering the target namespace and switching back
to the saved one. -/
structure SetnsBehavior where
  enterOk : Bool
  exitOk : Bool
  deriving DecidableEq, Repr

/-- Model of NetNS.get_netns_path: resolves a namespace name to its
/var/run/netns path, raising NameError when the path does not exist. -/
def get_netns_path (w : World) (name : String) : Except String String :=
  let path := "/var/run/netns/" ++ name
  if w.nsPaths.contains name then Except.ok path
  else Except.error ("NameError: Network namespace path " ++ path ++ " is invalid")

/-- Model of NetNS.set_netns, a wrapper around libc.setns: the kernel
either performs the switch (return code 0) or fails (return code -1).
The wrapper returns the code; its callers in the source ignore it. -/
def set_netns (ok : Bool) (target : String) (w : World) : Int × World :=
  if ok then (0, { w with curNS := target }) else (-1, w)

/-- Model of netns_socket, i.e. of running an operation under the NetNS
context manager: init resolves the target path (raising NameError when it
is absent), enter opens a handle to the current namespace and calls setns
toward the target, the operation runs, and exit calls setns back toward
the saved namespace and closes the handle.  The exit step runs even when
the operation raises (with-statement semantics), and both setns return
codes are ignored, exactly as in the source. -/
def withNetNS {α : Type} (b : SetnsBehavior) (w : World) (name : String)
    (op : Except String α) : Except String (Except String α) × World :=
  match get_netns_path w name with
  | Except.error e => (Except.error e, w)
  | Except.ok _ =>
    let saved := w.curNS
    let w1 : World := { w with openHandles := saved :: w.openHandles }
    let w2 := (set_netns b.enterOk name w1).2
    let w3 := (set_netns b.exitOk saved w2).2
    let w4 : World := { w3 with openHandles := w3.openHandles.erase saved }
    (Except.ok op, w4)

end NetNSModel

namespace ETH

/-- Constant BITS_IN_MBIT of M7ETHBenchmark. -/
def BITS_IN_MBIT : ℕ := 1000000

/-- Constant UDP_HEADER_SIZE of M7ETHBenchmark. -/
def UDP_HEADER_SIZE : ℕ := 42

/-- Constant TCP_HEADER_SIZE of M7ETHBenchmark. -/
def TCP_HEADER_SIZE : ℕ := 56

/-- The command-line configuration consumed by M7ETHBenchmark (the fields
the embedded code reads). -/
structure Config where
  message_size : ℕ
  conn_type : String
  timeout : ℕ
  duplex : String
  deriving DecidableEq, Repr

/-- The instance state of M7ETHBenchmark: the socket receive timeouts, the
header size selected by the transport, the message built once at init, the
configured sizes and duration, the per-link counters and the two run
flags. -/
structure State where
  sock_timeouts : ℚ × ℚ
  header_size : ℕ
  message : List Char
  message_size : ℕ
  timeout : ℕ
  sent_packets_eth : ℕ × ℕ
  received_packets_eth : ℕ × ℕ
  run_sender : Bool
  run_receiver : Bool
  deriving DecidableEq, Repr

/-- Model of M7ETHBenchmark.init: both sockets get a 2.0 second receive
timeout; the header size is 56 for TCP and 42 otherwise; the message is
built once from the random-character stream, with
message_size - header_size characters (Python range of a negative number
is empty, matching Nat subtraction); counters start at zero and both run
flags start false. -/
def init (c : Config) (randChoice : ℕ → Char) : State :=
  let hdr := if c.conn_type = "TCP" then TCP_HEADER_SIZE else UDP_HEADER_SIZE
  { sock_timeouts := (2, 2)
    header_size := hdr
    message := (List.range (c.message_size - hdr)).map randChoice
    message_size := c.message_size
    timeout := c.timeout
    sent_packets_eth := (0, 0)
    received_packets_eth := (0, 0)
    run_sender := false
    run_receiver := false }

/-- Outcome of one iteration of the sender loop: sendto succeeded, or the
socket timed out (the exception is swallowed and the loop continues). -/
inductive SendOutcome
  | success
  | timedOut
  deriving DecidableEq, Repr

/-- Model of the per-iteration behaviour of M7ETHBenchmark.send_packets:
given the message built at init and the outcome of each sendto attempt,
returns the list of payloads actually handed to sendto and the number of
increments of the sent counter.  Every successful iteration sends
message.encode(), the same bytes each time. -/
def send_packets (message : List Char) : List SendOutcome → List (List Char) × ℕ
  | [] => ([], 0)
  | SendOutcome.success :: rest =>
    let r := send_packets message rest
    (message :: r.1, r.2 + 1)
  | SendOutcome.timedOut :: rest => send_packets message rest

/-- One report file written by M7ETHBenchmark.print_test_results: the
values of the written lines, plus whether each of the two conditional
warning lines is written. -/
structure Report where
  exec_time : ℕ
  packet_size : ℕ
  injected : ℕ
  received : ℕ
  lost_percent : ℚ
  bandwidth : ℚ
  warn_no_sent : Bool
  warn_no_recv : Bool
  deriving DecidableEq, Repr

/-- The sent counter print_test_results reads for link idx:
sent_packets_eth[idx]. -/
def sentIdx (s : State) (idx : Fin 2) : ℕ :=
  if idx = 0 then s.sent_packets_eth.1 else s.sent_packets_eth.2

/-- The received counter print_test_results reads for link idx:
received_packets_eth[idx - 1].  For idx = 0 the Python index -1 selects the
last element of the two-element list, so the received count comes from the
other link in both cases. -/
def recvIdx (s : State) (idx : Fin 2) : ℕ :=
  if idx = 0 then s.received_packets_eth.2 else s.received_packets_eth.1

/-- Model of M7ETHBenchmark.print_test_results for link idx.  The loss
computation divides by float(sent_packets) before any line, including the
warning lines, is produced, and the bandwidth computation divides by
float(timeout * BITS_IN_MBIT); a zero divisor raises ZeroDivisionError and
aborts the report. -/
def print_test_results (s : State) (idx : Fin 2) : Except String Report :=
  (pyDivQ ((sentIdx s idx : ℚ) - (recvIdx s idx : ℚ)) (sentIdx s idx : ℚ)).bind fun frac =>
    (pyDivQ ((recvIdx s idx : ℚ) * (s.message_size : ℚ) * 8)
        ((s.timeout : ℚ) * (BITS_IN_MBIT : ℚ))).map fun bandwidth =>
      { exec_time := s.timeout
        packet_size := s.message_size
        injected := sentIdx s idx
        received := recvIdx s idx
        lost_percent := frac * 100
        bandwidth := bandwidth
        warn_no_sent := sentIdx s idx == 0
        warn_no_recv := recvIdx s idx == 0 }

/-- The observable events of M7ETHBenchmark.run_benchmark, in program
order. -/
inductive Ev
  | setRunReceiver (v : Bool)
  | setRunSender (v : Bool)
  | startReceiver (idx : Fin 2)
  | startSender (idx : Fin 2)
  | sleepWarmup
  | sleepTest
  | sleepDrain
  | joinReceiver (idx : Fin 2)
  | joinSender (idx : Fin 2)
  | closeSocket (idx : Fin 2)
  | writeReport (idx : Fin 2)
  deriving DecidableEq, Repr

/-- The event trace of M7ETHBenchmark.run_benchmark, transcribed from the
source in program order: set both run flags, start the receiver on link 1
(and on link 0 when duplex is full), sleep 1 second of warm-up, start the
sender on link 0 (and on link 1 when full), sleep for the test duration,
clear the sender flag, sleep 1 second of drain, clear the receiver flag,
join every started thread, close both sockets and write the reports. -/
def run_benchmark_trace (duplex : String) : List Ev :=
  [Ev.setRunReceiver true, Ev.setRunSender true, Ev.startReceiver 1]
  ++ (if duplex = "full" then [Ev.startReceiver 0] else [])
  ++ [Ev.sleepWarmup, Ev.startSender 0]
  ++ (if duplex = "full" then [Ev.startSender 1] else [])
  ++ [Ev.sleepTest, Ev.setRunSender false, Ev.sleepDrain, Ev.setRunReceiver false,
      Ev.joinReceiver 1]
  ++ (if duplex = "full" then [Ev.joinReceiver 0, Ev.joinSender 1] else [])
  ++ [Ev.joinSender 0, Ev.closeSocket 0, Ev.closeSocket 1, Ev.writeReport 0]
  ++ (if duplex = "full" then [Ev.writeReport 1] else [])

/-- Event predicate: a receiver thread is started. -/
def isStartReceiver : Ev → Bool
  | Ev.startReceiver _ => true
  | _ => false

/-- Event predicate: a sender thread is started. -/
def isStartSender : Ev → Bool
  | Ev.startSender _ => true
  | _ => false

/-- Event predicate: the warm-up sleep. -/
def isWarmupSleep : Ev → Bool
  | Ev.sleepWarmup => true
  | _ => false

/-- Event predicate: the drain sleep. -/
def isDrainSleep : Ev → Bool
  | Ev.sleepDrain => true
  | _ => false

/-- Event predicate: the sender flag is cleared. -/
def isClearSender : Ev → Bool
  | Ev.setRunSender false => true
  | _ => false

/-- Event predicate: the receiver flag is cleared. -/
def isClearReceiver : Ev → Bool
  | Ev.setRunReceiver false => true
  | _ => false

/-- Event predicate: a thread join. -/
def isJoin : Ev → Bool
  | Ev.joinReceiver _ => true
  | Ev.joinSender _ => true
  | _ => false

/-- Event predicate: a socket close. -/
def isClose : Ev → Bool
  | Ev.closeSocket _ => true
  | _ => false

/-- Event predicate: a report write (which reads final counters). -/
def isReport : Ev → Bool
  | Ev.writeReport _ => true
  | _ => false

/-- Every event of the trace satisfying p occurs strictly before every
event satisfying q. -/
def allBefore (tr : List Ev) (p q : Ev → Bool) : Bool :=
  tr.enum.all fun ie =>
    !p ie.2 || tr.enum.all fun jf => !q jf.2 || decide (ie.1 < jf.1)

/-- Every started sender or receiver thread is joined somewhere in the
trace. -/
def allStartedJoined (tr : List Ev) : Bool :=
  tr.all fun e =>
    match e with
    | Ev.startSender i => tr.contains (Ev.joinSender i)
    | Ev.startReceiver i => tr.contains (Ev.joinReceiver i)
    | _ => true

end ETH

namespace CAN

/-- Constant BITS_IN_KBIT of M7CAN2ETHBenchmark. -/
def BITS_IN_KBIT : ℕ := 1000

/-- The command-line configuration consumed by M7CAN2ETHBenchmark (the
fields the embedded code reads). -/
structure Config where
  message_size : ℕ
  timeout : ℕ
  deriving DecidableEq, Repr

/-- The instance state of M7CAN2ETHBenchmark: the socket receive timeout,
the configured sizes and duration, the received counter and the run
flag. -/
structure State where
  message_size : ℕ
  sock_timeout : ℕ
  timeout : ℕ
  received_packets_eth : ℕ
  run_receiver : Bool
  deriving DecidableEq, Repr

/-- Model of M7CAN2ETHBenchmark.init: the single socket receive timeout is
set to the configured test duration plus 5 seconds, the received counter
starts at zero and the run flag starts false. -/
def init (c : Config) : State :=
  { message_size := c.message_size
    sock_timeout := c.timeout + 5
    timeout := c.timeout
    received_packets_eth := 0
    run_receiver := false }

/-- Outcome of one recvfrom attempt in the collector loop: a packet
arrived, or the socket timed out. -/
inductive RecvOutcome
  | success
  | timedOut
  deriving DecidableEq, Repr

/-- Model of M7CAN2ETHBenchmark.receive_packets: while the run flag is
true, consume the next recvfrom outcome; a success increments the received
counter and loops, a timeout sets the run flag itself to false (the only
stop mechanism), after which the loop exits. -/
def receive_packets (outcomes : List RecvOutcome) (s : State) : State :=
  match outcomes with
  | [] => s
  | o :: rest =>
    if s.run_receiver then
      match o with
      | RecvOutcome.success =>
        receive_packets rest { s with received_packets_eth := s.received_packets_eth + 1 }
      | RecvOutcome.timedOut =>
        receive_packets rest { s with run_receiver := false }
    else s

/-- The report written by M7CAN2ETHBenchmark.print_test_results: the
values of the four written lines. -/
structure Report where
  rx_frames : ℕ
  rx_data_transfer : ℕ
  rx_frames_per_s : ℤ
  rx_throughput : ℤ
  deriving DecidableEq, Repr

/-- Model of M7CAN2ETHBenchmark.print_test_results: the data transfer is
received times message_size bytes, the throughput is
int(data * 8 / (timeout * BITS_IN_KBIT)) and the frame rate is
int(received / timeout), both via Python float division and int()
truncation. -/
def print_test_results (s : State) : Except String Report :=
  (pyDivQ (((s.received_packets_eth * s.message_size : ℕ) : ℚ) * 8)
      ((s.timeout : ℚ) * (BITS_IN_KBIT : ℚ))).bind fun bwq =>
    (pyDivQ (s.received_packets_eth : ℚ) (s.timeout : ℚ)).map fun fpsq =>
      { rx_frames := s.received_packets_eth
        rx_data_transfer := s.received_packets_eth * s.message_size
        rx_frames_per_s := pyInt fpsq
        rx_throughput := pyInt bwq }

/-- Model of M7CAN2ETHBenchmark.run_benchmark up to the final counters: it
sets the run flag to true and calls receive_packets inline on the main
thread; no other thread or stop signal exists in this variant. -/
def run_benchmark (c : Config) (outcomes : List RecvOutcome) : State :=
  receive_packets outcomes { init c with run_receiver := true }

end CAN
/-- Helper: pyDivQ with a nonzero divisor yields the exact quotient. -/
theorem pyDivQ_of_ne {a b : ℚ} (h : b ≠ 0) : pyDivQ a b = Except.ok (a / b) := if_neg h

/-- Helper: Python int() of a nonnegative value is the floor. -/
theorem pyInt_of_nonneg {q : ℚ} (h : 0 ≤ q) : pyInt q = ⌊q⌋ := if_pos h

/-- Helper: for link 0 the report reads the sent counter of link 0. -/
theorem ETH.sentIdx_zero (s : ETH.State) : ETH.sentIdx s 0 = s.sent_packets_eth.1 := rfl

/-- Helper: for link 0 the report reads the received counter of link 1. -/
theorem ETH.recvIdx_zero (s : ETH.State) : ETH.recvIdx s 0 = s.received_packets_eth.2 := rfl

/-- Helper: once the run flag is false the collector loop exits without
consuming further outcomes. -/
theorem CAN.receive_packets_halt (outcomes : List CAN.RecvOutcome) (s : CAN.State)
    (h : s.run_receiver = false) : CAN.receive_packets outcomes s = s := by
  cases outcomes with
  | nil => rfl
  | cons o rest => simp [CAN.receive_packets, h]

/-- C3: after withNetNS returns, whether the operation succeeded or raised,
the current namespace of the calling thread equals the namespace it had
before the call and the saved namespace handle has been released, provided
the restoring setns syscall behaves (the source ignores its return code). -/
theorem C3_withNetNS_restores {α : Type} (b : NetNSModel.SetnsBehavior)
    (w : NetNSModel.World) (name : String) (op : Except String α)
    (hexit : b.exitOk = true) :
    (NetNSModel.withNetNS b w name op).2.curNS = w.curNS
    ∧ (NetNSModel.withNetNS b w name op).2.openHandles = w.openHandles := by
  obtain ⟨be, bx⟩ := b
  simp only at hexit
  subst hexit
  by_cases hc : name ∈ w.nsPaths
  · cases be <;>
      simp [NetNSModel.withNetNS, NetNSModel.get_netns_path, NetNSModel.set_netns, hc,
        List.erase_cons_head]
  · simp [NetNSModel.withNetNS, NetNSModel.get_netns_path, hc]

/-- Witness for C3 at a concrete world, with a failing operation. -/
theorem C3_witness :
    ((⟨true, true⟩ : NetNSModel.SetnsBehavior).exitOk = true)
    ∧ ((NetNSModel.withNetNS ⟨true, true⟩ ⟨"proc-ns", ["nw-ns0"], []⟩ "nw-ns0"
          (Except.error "socket creation failed" : Except String ℕ)).2.curNS = "proc-ns"
        ∧ (NetNSModel.withNetNS ⟨true, true⟩ ⟨"proc-ns", ["nw-ns0"], []⟩ "nw-ns0"
          (Except.error "socket creation failed" : Except String ℕ)).2.openHandles = []) :=
  ⟨rfl, C3_withNetNS_restores ⟨true, true⟩ ⟨"proc-ns", ["nw-ns0"], []⟩ "nw-ns0"
    (Except.error "socket creation failed" : Except String ℕ) rfl⟩

/-- C4 counterexample: with the target namespace present but the setns
syscall failing (on entry in the first conjunct, on restore in the second),
withNetNS completes without raising any error, because the source ignores
the setns return code. -/
theorem C4_counterexample :
    (NetNSModel.withNetNS ⟨false, true⟩ ⟨"proc-ns", ["nw-ns0"], []⟩ "nw-ns0"
        (Except.ok (0 : ℕ))).1 = Except.ok (Except.ok 0)
    ∧ (NetNSModel.withNetNS ⟨true, false⟩ ⟨"proc-ns", ["nw-ns0"], []⟩ "nw-ns0"
        (Except.ok (0 : ℕ))).1 = Except.ok (Except.ok 0) :=
  ⟨rfl, rfl⟩

/-- C4 (amended): withNetNS raises exactly when the filesystem path for the
namespace name does not exist (a NameError from get_netns_path); setns
failures in either direction raise nothing. -/
theorem C4_raises_iff_path_missing {α : Type} (b : NetNSModel.SetnsBehavior)
    (w : NetNSModel.World) (name : String) (op : Except String α) :
    isError (NetNSModel.withNetNS b w name op).1 = true
      ↔ w.nsPaths.contains name = false := by
  by_cases hc : name ∈ w.nsPaths <;>
    simp [NetNSModel.withNetNS, NetNSModel.get_netns_path, NetNSModel.set_netns, hc, isError]

/-- C1 counterexample: in half-duplex the code starts the receiver on link 1
and the sender on link 0, and the report for link 0 divides by the sent
counter of link 0 but subtracts the received counter of link 1: with
sent = (100, 0) and received = (50, 80) the reported loss is 20 percent,
while the formula of the claim, using the received counter of link 0
itself, gives 50 percent. -/
theorem C1_counterexample :
    Except.map ETH.Report.lost_percent
        (ETH.print_test_results ⟨(2, 2), 42, [], 1500, 5, (100, 0), (50, 80), false, false⟩ 0)
      = Except.ok 20
    ∧ ((20 : ℚ) ≠ ((100 : ℚ) - 50) / 100 * 100)
    ∧ (ETH.run_benchmark_trace "half").contains (ETH.Ev.startReceiver 1) = true
    ∧ (ETH.run_benchmark_trace "half").contains (ETH.Ev.startReceiver 0) = false
    ∧ (ETH.run_benchmark_trace "half").contains (ETH.Ev.startSender 0) = true
    ∧ (ETH.run_benchmark_trace "half").contains (ETH.Ev.startSender 1) = false := by
  refine ⟨?_, by norm_num, rfl, rfl, rfl, rfl⟩
  norm_num [ETH.print_test_results, ETH.sentIdx, ETH.recvIdx, pyDivQ, ETH.BITS_IN_MBIT,
    Except.map, Except.bind]

/-- C1 (amended): in half-duplex the benchmark starts the receiver on link 1
and the sender on link 0, and the report for link 0 computes the loss from
the sent counter of link 0 and the received counter of link 1. -/
theorem C1_halfduplex_report (st : ETH.State) (hs : st.sent_packets_eth.1 ≠ 0)
    (ht : st.timeout ≠ 0) :
    Except.map ETH.Report.lost_percent (ETH.print_test_results st 0)
      = Except.ok (((st.sent_packets_eth.1 : ℚ) - (st.received_packets_eth.2 : ℚ))
          / (st.sent_packets_eth.1 : ℚ) * 100)
    ∧ (ETH.run_benchmark_trace "half").contains (ETH.Ev.startReceiver 1) = true
    ∧ (ETH.run_benchmark_trace "half").contains (ETH.Ev.startSender 0) = true
    ∧ (ETH.run_benchmark_trace "half").contains (ETH.Ev.startReceiver 0) = false
    ∧ (ETH.run_benchmark_trace "half").contains (ETH.Ev.startSender 1) = false := by
  have h1 : ((st.sent_packets_eth.1 : ℚ)) ≠ 0 := Nat.cast_ne_zero.mpr hs
  have h2 : ((st.timeout : ℚ)) * (ETH.BITS_IN_MBIT : ℚ) ≠ 0 := by
    have h3 : ((st.timeout : ℚ)) ≠ 0 := Nat.cast_ne_zero.mpr ht
    simp [ETH.BITS_IN_MBIT, h3]
  refine ⟨?_, rfl, rfl, rfl, rfl⟩
  unfold ETH.print_test_results
  rw [ETH.sentIdx_zero, ETH.recvIdx_zero, pyDivQ_of_ne h1, pyDivQ_of_ne h2]
  rfl

/-- Witness for C1 at concrete counters. -/
theorem C1_witness :
    ((100, 0) : ℕ × ℕ).1 ≠ 0 ∧ (5 : ℕ) ≠ 0
    ∧ (Except.map ETH.Report.lost_percent
          (ETH.print_test_results ⟨(2, 2), 42, [], 1500, 5, (100, 0), (50, 80), false, false⟩ 0)
        = Except.ok ((((100 : ℕ) : ℚ) - ((80 : ℕ) : ℚ)) / ((100 : ℕ) : ℚ) * 100)
      ∧ (ETH.run_benchmark_trace "half").contains (ETH.Ev.startReceiver 1) = true
      ∧ (ETH.run_benchmark_trace "half").contains (ETH.Ev.startSender 0) = true
      ∧ (ETH.run_benchmark_trace "half").contains (ETH.Ev.startReceiver 0) = false
      ∧ (ETH.run_benchmark_trace "half").contains (ETH.Ev.startSender 1) = false) :=
  ⟨by norm_num, by norm_num,
    C1_halfduplex_report ⟨(2, 2), 42, [], 1500, 5, (100, 0), (50, 80), false, false⟩
      (by norm_num) (by norm_num)⟩

/-- C2: with a zero sent counter the report computation raises
ZeroDivisionError at the loss division, before any line, including the
no-packets-transmitted warning, is written; the warning branch in the
source is unreachable. -/
theorem C2_zero_sent_divides_by_zero :
    ETH.print_test_results ⟨(2, 2), 42, [], 1500, 5, (0, 0), (7, 9), false, false⟩ 0
      = Except.error "ZeroDivisionError" := rfl

/-- C5 counterexample: with the default UDP configuration of payload size
1500, the single payload handed to sendto has 1458 characters (1500 minus
the 42-byte UDP header allowance), not 1500. -/
theorem C5_counterexample :
    (ETH.send_packets (ETH.init ⟨1500, "UDP", 5, "half"⟩ (fun _ => 'a')).message
        [ETH.SendOutcome.success]).1.map List.length = [1458]
    ∧ (1458 : ℕ) ≠ 1500 := by
  refine ⟨?_, by norm_num⟩
  simp only [ETH.send_packets, List.map_cons, List.map_nil, List.length_map]
  norm_num [ETH.init, ETH.UDP_HEADER_SIZE, List.length_map, List.length_range]
  decide

/-- C5 (amended): every payload the generator hands to sendto is the one
message built at init, whose length is message_size minus the header size
(56 for TCP, 42 otherwise), and the sent counter counts exactly the sent
payloads. -/
theorem C5_payload_reuse (c : ETH.Config) (randChoice : ℕ → Char)
    (outcomes : List ETH.SendOutcome) :
    (∀ p ∈ (ETH.send_packets (ETH.init c randChoice).message outcomes).1,
        p = (ETH.init c randChoice).message)
    ∧ (ETH.init c randChoice).message.length
        = c.message_size - (if c.conn_type = "TCP" then 56 else 42)
    ∧ (ETH.send_packets (ETH.init c randChoice).message outcomes).2
        = (ETH.send_packets (ETH.init c randChoice).message outcomes).1.length := by
  refine ⟨?_, ?_, ?_⟩
  · generalize (ETH.init c randChoice).message = msg
    induction outcomes with
    | nil => simp [ETH.send_packets]
    | cons o rest ih =>
      cases o <;> simp [ETH.send_packets] <;> exact fun p hp => ih p hp
  · simp [ETH.init, ETH.UDP_HEADER_SIZE, ETH.TCP_HEADER_SIZE]
  · generalize (ETH.init c randChoice).message = msg
    induction outcomes with
    | nil => simp [ETH.send_packets]
    | cons o rest ih =>
      cases o <;> simp [ETH.send_packets] <;> omega

/-- C6 counterexample: in the CAN-to-Ethernet variant the socket receive
timeout is the configured duration plus 5, hence 35 for a 30-second test
and 65 for a 60-second test: not the fixed constant 2 and not independent
of the test duration. -/
theorem C6_counterexample :
    (CAN.init ⟨1500, 30⟩).sock_timeout = 35
    ∧ (CAN.init ⟨1500, 60⟩).sock_timeout = 65
    ∧ (35 : ℕ) ≠ 2 := by
  refine ⟨rfl, rfl, by norm_num⟩

/-- C6 (amended): the dual-link Ethernet variant sets both socket receive
timeouts to the fixed constant 2.0 independent of the configuration, while
the CAN-to-Ethernet variant sets its socket timeout to the configured test
duration plus 5. -/
theorem C6_timeout_policy (c : ETH.Config) (randChoice : ℕ → Char) (cc : CAN.Config) :
    (ETH.init c randChoice).sock_timeouts = (2, 2)
    ∧ (CAN.init cc).sock_timeout = cc.timeout + 5 :=
  ⟨rfl, rfl⟩
/-- Helper: a successful receive increments the counter and the loop goes on. -/
theorem CAN.receive_packets_success (l : List CAN.RecvOutcome) (s : CAN.State)
    (h : s.run_receiver = true) :
    CAN.receive_packets (CAN.RecvOutcome.success :: l) s
      = CAN.receive_packets l
          { s with received_packets_eth := s.received_packets_eth + 1 } := by
  simp [CAN.receive_packets, h]

/-- Helper: a timeout clears the run flag and the loop then exits, leaving
the rest of the outcome stream unconsumed. -/
theorem CAN.receive_packets_timeout (l : List CAN.RecvOutcome) (s : CAN.State)
    (h : s.run_receiver = true) :
    CAN.receive_packets (CAN.RecvOutcome.timedOut :: l) s
      = { s with run_receiver := false } := by
  simp [CAN.receive_packets, h, CAN.receive_packets_halt]

/-- C7 counterexample: in the CAN-to-Ethernet variant with one received
packet of 1500 bytes over 30 seconds the written throughput is 0, while
the exact formula received times payload times 8 over elapsed times 1000
gives 12000 / 30000, a nonzero value: the written value is the truncation,
not the exact quotient. -/
theorem C7_counterexample :
    Except.map CAN.Report.rx_throughput (CAN.print_test_results ⟨1500, 35, 30, 1, false⟩)
      = Except.ok 0
    ∧ ((0 : ℚ) ≠ ((1 : ℚ) * 1500 * 8) / ((30 : ℚ) * 1000)) := by
  constructor
  · norm_num [CAN.print_test_results, pyDivQ, pyInt, CAN.BITS_IN_KBIT, Except.map,
      Except.bind]
  · norm_num

/-- C7 (amended): the Ethernet variant writes exactly
received * message_size * 8 / (timeout * 1000000) as its Mbit/s bandwidth,
and the CAN-to-Ethernet variant writes the floor (int() truncation of a
nonnegative value) of received * message_size * 8 / (timeout * 1000) as
its Kbit/s throughput. -/
theorem C7_throughput_formula (st : ETH.State) (cs : CAN.State)
    (hs : st.sent_packets_eth.1 ≠ 0) (ht : st.timeout ≠ 0) (hct : cs.timeout ≠ 0) :
    Except.map ETH.Report.bandwidth (ETH.print_test_results st 0)
      = Except.ok ((st.received_packets_eth.2 : ℚ) * (st.message_size : ℚ) * 8
          / ((st.timeout : ℚ) * 1000000))
    ∧ Except.map CAN.Report.rx_throughput (CAN.print_test_results cs)
      = Except.ok ⌊(cs.received_packets_eth : ℚ) * (cs.message_size : ℚ) * 8
          / ((cs.timeout : ℚ) * 1000)⌋ := by
  have h1 : ((st.sent_packets_eth.1 : ℚ)) ≠ 0 := Nat.cast_ne_zero.mpr hs
  have h3 : ((st.timeout : ℚ)) ≠ 0 := Nat.cast_ne_zero.mpr ht
  have h2 : ((st.timeout : ℚ)) * (ETH.BITS_IN_MBIT : ℚ) ≠ 0 := by
    simp [ETH.BITS_IN_MBIT, h3]
  have h5 : ((cs.timeout : ℚ)) ≠ 0 := Nat.cast_ne_zero.mpr hct
  have h4 : ((cs.timeout : ℚ)) * (CAN.BITS_IN_KBIT : ℚ) ≠ 0 := by
    simp [CAN.BITS_IN_KBIT, h5]
  constructor
  · unfold ETH.print_test_results
    rw [ETH.sentIdx_zero, ETH.recvIdx_zero, pyDivQ_of_ne h1, pyDivQ_of_ne h2]
    simp only [Except.bind, Except.map, Except.ok.injEq]
    norm_num [ETH.BITS_IN_MBIT]
  · have hb : (0 : ℚ) ≤ ((cs.received_packets_eth * cs.message_size : ℕ) : ℚ) * 8
        / ((cs.timeout : ℚ) * (CAN.BITS_IN_KBIT : ℚ)) := by positivity
    unfold CAN.print_test_results
    rw [pyDivQ_of_ne h4, pyDivQ_of_ne h5]
    simp only [Except.bind, Except.map, Except.ok.injEq]
    rw [pyInt_of_nonneg hb]
    congr 1
    push_cast [CAN.BITS_IN_KBIT]
    ring

/-- Witness for C7 at concrete counters. -/
theorem C7_witness :
    ((100, 0) : ℕ × ℕ).1 ≠ 0 ∧ (5 : ℕ) ≠ 0 ∧ (30 : ℕ) ≠ 0
    ∧ (Except.map ETH.Report.bandwidth
          (ETH.print_test_results ⟨(2, 2), 42, [], 1500, 5, (100, 0), (50, 80), false, false⟩ 0)
        = Except.ok (((80 : ℕ) : ℚ) * ((1500 : ℕ) : ℚ) * 8 / (((5 : ℕ) : ℚ) * 1000000))
      ∧ Except.map CAN.Report.rx_throughput (CAN.print_test_results ⟨1500, 35, 30, 1, false⟩)
        = Except.ok ⌊((1 : ℕ) : ℚ) * ((1500 : ℕ) : ℚ) * 8 / (((30 : ℕ) : ℚ) * 1000)⌋) :=
  ⟨by norm_num, by norm_num, by norm_num,
    C7_throughput_formula ⟨(2, 2), 42, [], 1500, 5, (100, 0), (50, 80), false, false⟩
      ⟨1500, 35, 30, 1, false⟩ (by norm_num) (by norm_num) (by norm_num)⟩

/-- C8: in every run of the dual-link orchestrator, every collector start
precedes the warm-up sleep, which precedes every generator start; the
sender flag is cleared before the drain sleep, which precedes the clearing
of the receiver flag; every join precedes every socket close, every close
precedes every report write, and every started thread is joined. -/
theorem C8_orchestrator_ordering (duplex : String) :
    ETH.allBefore (ETH.run_benchmark_trace duplex) ETH.isStartReceiver ETH.isStartSender = true
    ∧ ETH.allBefore (ETH.run_benchmark_trace duplex) ETH.isStartReceiver ETH.isWarmupSleep = true
    ∧ ETH.allBefore (ETH.run_benchmark_trace duplex) ETH.isWarmupSleep ETH.isStartSender = true
    ∧ (ETH.run_benchmark_trace duplex).any ETH.isWarmupSleep = true
    ∧ ETH.allBefore (ETH.run_benchmark_trace duplex) ETH.isClearSender ETH.isDrainSleep = true
    ∧ ETH.allBefore (ETH.run_benchmark_trace duplex) ETH.isDrainSleep ETH.isClearReceiver = true
    ∧ (ETH.run_benchmark_trace duplex).any ETH.isDrainSleep = true
    ∧ ETH.allBefore (ETH.run_benchmark_trace duplex) ETH.isClearSender ETH.isClearReceiver = true
    ∧ ETH.allBefore (ETH.run_benchmark_trace duplex) ETH.isJoin ETH.isClose = true
    ∧ ETH.allBefore (ETH.run_benchmark_trace duplex) ETH.isClose ETH.isReport = true
    ∧ ETH.allStartedJoined (ETH.run_benchmark_trace duplex) = true := by
  by_cases h : duplex = "full"
  · subst h
    decide
  · simp only [ETH.run_benchmark_trace, if_neg h]
    decide

/-- C9: in the single-link collector, every successful receive increments
the received counter and keeps the loop running, and the first timeout
terminates the loop by clearing the run flag itself, leaving the remaining
outcomes unconsumed; no external stop signal is involved. -/
theorem C9_selfterminating_collector (pre rest : List CAN.RecvOutcome) (s : CAN.State)
    (hpre : ∀ o ∈ pre, o = CAN.RecvOutcome.success) (hrun : s.run_receiver = true) :
    ((CAN.receive_packets (pre ++ CAN.RecvOutcome.timedOut :: rest) s).run_receiver = false
      ∧ (CAN.receive_packets (pre ++ CAN.RecvOutcome.timedOut :: rest) s).received_packets_eth
          = s.received_packets_eth + pre.length)
    ∧ (CAN.receive_packets pre s).run_receiver = true
    ∧ (CAN.receive_packets pre s).received_packets_eth
        = s.received_packets_eth + pre.length := by
  induction pre generalizing s with
  | nil =>
    rw [List.nil_append, CAN.receive_packets_timeout rest s hrun]
    exact ⟨⟨rfl, rfl⟩, hrun, rfl⟩
  | cons o pre ih =>
    have ho : o = CAN.RecvOutcome.success := hpre o (List.mem_cons_self o pre)
    subst ho
    have hpre2 : ∀ o ∈ pre, o = CAN.RecvOutcome.success :=
      fun o hm => hpre o (List.mem_cons_of_mem _ hm)
    have ih2 := ih { s with received_packets_eth := s.received_packets_eth + 1 } hpre2 hrun
    rw [List.cons_append,
      CAN.receive_packets_success (pre ++ CAN.RecvOutcome.timedOut :: rest) s hrun,
      CAN.receive_packets_success pre s hrun]
    refine ⟨⟨ih2.1.1, ?_⟩, ih2.2.1, ?_⟩
    · rw [ih2.1.2]
      simp only [List.length_cons]
      omega
    · rw [ih2.2.2]
      simp only [List.length_cons]
      omega

/-- Witness for C9: two packets arrive, then a timeout, then one more
outcome that the loop never consumes; the benchmark ends with the flag
cleared by the collector itself and two counted packets. -/
theorem C9_witness :
    (∀ o ∈ [CAN.RecvOutcome.success, CAN.RecvOutcome.success],
        o = CAN.RecvOutcome.success)
    ∧ ({ CAN.init ⟨1500, 30⟩ with run_receiver := true } : CAN.State).run_receiver = true
    ∧ (((CAN.run_benchmark ⟨1500, 30⟩
            [CAN.RecvOutcome.success, CAN.RecvOutcome.success, CAN.RecvOutcome.timedOut,
              CAN.RecvOutcome.success]).run_receiver = false
          ∧ (CAN.run_benchmark ⟨1500, 30⟩
              [CAN.RecvOutcome.success, CAN.RecvOutcome.success, CAN.RecvOutcome.timedOut,
                CAN.RecvOutcome.success]).received_packets_eth = 0 + 2)
        ∧ (CAN.receive_packets [CAN.RecvOutcome.success, CAN.RecvOutcome.success]
              { CAN.init ⟨1500, 30⟩ with run_receiver := true }).run_receiver = true
        ∧ (CAN.receive_packets [CAN.RecvOutcome.success, CAN.RecvOutcome.success]
              { CAN.init ⟨1500, 30⟩ with run_receiver := true }).received_packets_eth
            = 0 + 2) :=
  ⟨by decide, rfl,
    C9_selfterminating_collector [CAN.RecvOutcome.success, CAN.RecvOutcome.success]
      [CAN.RecvOutcome.success] { CAN.init ⟨1500, 30⟩ with run_receiver := true }
      (by decide) rfl⟩

/-- C10: with a positive test duration the CAN-to-Ethernet report writes
the floor (truncation toward zero of nonnegative values) of the exact
throughput received * message_size * 8 / (timeout * 1000) and of the exact
frame rate received / timeout; the fractional parts are discarded. -/
theorem C10_report_truncates (s : CAN.State) (ht : s.timeout ≠ 0) :
    Except.map (fun r => (CAN.Report.rx_throughput r, CAN.Report.rx_frames_per_s r))
        (CAN.print_test_results s)
      = Except.ok
          (⌊(s.received_packets_eth : ℚ) * (s.message_size : ℚ) * 8
              / ((s.timeout : ℚ) * 1000)⌋,
            ⌊(s.received_packets_eth : ℚ) / (s.timeout : ℚ)⌋) := by
  have h5 : ((s.timeout : ℚ)) ≠ 0 := Nat.cast_ne_zero.mpr ht
  have h4 : ((s.timeout : ℚ)) * (CAN.BITS_IN_KBIT : ℚ) ≠ 0 := by
    simp [CAN.BITS_IN_KBIT, h5]
  have hb : (0 : ℚ) ≤ ((s.received_packets_eth * s.message_size : ℕ) : ℚ) * 8
      / ((s.timeout : ℚ) * (CAN.BITS_IN_KBIT : ℚ)) := by positivity
  have hf : (0 : ℚ) ≤ (s.received_packets_eth : ℚ) / (s.timeout : ℚ) := by positivity
  unfold CAN.print_test_results
  rw [pyDivQ_of_ne h4, pyDivQ_of_ne h5]
  simp only [Except.bind, Except.map, Except.ok.injEq, Prod.mk.injEq]
  rw [pyInt_of_nonneg hb, pyInt_of_nonneg hf]
  refine ⟨?_, rfl⟩
  congr 1
  push_cast [CAN.BITS_IN_KBIT]
  ring

/-- Witness for C10 at concrete counters. -/
theorem C10_witness :
    (30 : ℕ) ≠ 0
    ∧ Except.map (fun r => (CAN.Report.rx_throughput r, CAN.Report.rx_frames_per_s r))
          (CAN.print_test_results ⟨1500, 35, 30, 70, false⟩)
        = Except.ok
            (⌊((70 : ℕ) : ℚ) * ((1500 : ℕ) : ℚ) * 8 / (((30 : ℕ) : ℚ) * 1000)⌋,
              ⌊((70 : ℕ) : ℚ) / ((30 : ℕ) : ℚ)⌋) :=
  ⟨by norm_num, C10_report_truncates ⟨1500, 35, 30, 70, false⟩ (by norm_num)⟩
